import Mathlib

/-!
Shallow embedding of `src/app.py` (FastAPI Programming Joke Generator).

The service has no mutable state: a fixed joke list (`get_jokes`), a
configuration value (`API_KEY`) read from the process environment at
startup, an equality-based credential check (`verify_api_key`), and four
route handlers.  The process environment is modelled as a function
`String → Option String`; the pseudorandom source behind `random.choice`
is modelled as an arbitrary natural number reduced modulo the list
length; a fallible handler outcome is an `Except HTTPException` value
whose error carries the status code and detail message, mirroring a
raised `fastapi.HTTPException`.
-/

namespace JokeApp

/-- A raised `fastapi.HTTPException`: status code and detail message. -/
structure HTTPException where
  status_code : Nat
  detail : String
deriving Repr, DecidableEq

/-- Environment of the process: maps a variable name to its value, if set. -/
def Env : Type := String → Option String

/-- Source line 23: `API_KEY = os.getenv("AUTH_KEY", "your-secret-api-key-12345")`.
`os.getenv(name, default)` yields the variable when present, the default
literal otherwise; the value is computed once when the module loads. -/
def API_KEY (env : Env) : String :=
  match env "AUTH_KEY" with
  | some v => v
  | none => "your-secret-api-key-12345"

/-- Source line 24: `API_KEY_NAME = "X-API-Key"`. -/
def API_KEY_NAME : String := "X-API-Key"

/-- Source lines 30-53, `verify_api_key`: the argument is the value of the
`X-API-Key` header (`None` when the header is absent, since the
`APIKeyHeader` dependency has `auto_error=False`).  Missing header raises
401, wrong value raises 403, otherwise the key itself is returned. -/
def verify_api_key (env : Env) (api_key : Option String) :
    Except HTTPException String :=
  match api_key with
  | none =>
    .error ⟨401, "Missing API Key. Please provide X-API-Key header."⟩
  | some k =>
    if k ≠ API_KEY env then
      .error ⟨403, "Invalid API Key."⟩
    else
      .ok k

/-- Source lines 56-114, `get_jokes`: the fixed joke list literal. -/
def get_jokes : List String :=
  [ "Why do programmers prefer dark mode? Because light attracts bugs!",
    "How do you comfort a JavaScript bug? You console it!",
    "Why did the programmer quit his job? He didn\x27t get arrays!",
    "What\x27s a programmer\x27s favorite hangout place? Foo Bar!",
    "Why do Python programmers prefer snakes? Because they\x27re great at wrapping things up!",
    "How many programmers does it take to change a light bulb? None, that\x27s a hardware problem!",
    "Why did the developer go broke? Because he used up all his cache!",
    "What do you call a programmer from Finland? Nerdic!",
    "Why don\x27t programmers like nature? It has too many bugs!",
    "What\x27s the object-oriented way to become wealthy? Inheritance!",
    "Why did the programmer get stuck in the shower? The instructions said: \x27Lather, Rinse, Repeat.\x27",
    "How do you know if a programmer is an extrovert? They look at YOUR shoes when talking to you!",
    "Why do Java developers wear glasses? Because they can\x27t C#!",
    "What\x27s a programmer\x27s favorite snack? Cookies! (The web kind)",
    "Why did the SQL query break up with the database? There was no connection!",
    "What do you call a programmer who doesn\x27t comment code? A future job applicant!",
    "Why do programmers always mix up Halloween and Christmas? Because Oct 31 == Dec 25!",
    "What\x27s a computer\x27s favorite beat? An algo-rhythm!",
    "Why did the developer go to the doctor? Because he had a case of the runs (infinite loops)!",
    "What\x27s a programmer\x27s favorite type of music? Algo-rhythm and blues!",
    "Why do programmers prefer dark mode? Because light attracts bugs!",
    "How do you comfort a JavaScript bug? You console it!",
    "Why did the programmer quit his job? He didn\x27t get arrays!",
    "What\x27s a programmer\x27s favorite hangout place? Foo Bar!" ]

/-- Python `random.choice(seq)`: an element at a uniformly chosen index.
The pseudorandom draw is abstracted as a natural number `r`, reduced
modulo the sequence length; on an empty sequence the call fails
(`IndexError`), modelled as `none`. -/
def random_choice (seq : List String) (r : Nat) : Option String :=
  seq.get? (r % seq.length)

/-- Body of `GET /joke` (source lines 135-150): the JSON object returned
by `get_random_joke` has exactly the fields `joke` and `total_jokes`. -/
structure JokeResponse where
  joke : String
  total_jokes : Nat
deriving Repr, DecidableEq

/-- Body of `GET /jokes` (source lines 153-167). -/
structure JokesResponse where
  jokes : List String
  total_jokes : Nat
deriving Repr, DecidableEq

/-- Body of `GET /health` (source lines 170-181). -/
structure HealthResponse where
  status : String
  service : String
deriving Repr, DecidableEq

/-- Source lines 135-150, handler body of `GET /joke`: pick
`random.choice(get_jokes())` and report the full list length. -/
def get_random_joke (r : Nat) : Option JokeResponse :=
  let jokes := get_jokes
  (random_choice jokes r).map fun selected_joke =>
    { joke := selected_joke, total_jokes := jokes.length }

/-- Source lines 153-167, handler body of `GET /jokes`. -/
def get_all_jokes : JokesResponse :=
  let jokes := get_jokes
  { jokes := jokes, total_jokes := jokes.length }

/-- Source lines 170-181, handler body of `GET /health`. -/
def health_check : HealthResponse :=
  { status := "healthy", service := "Programming Joke Generator API" }

/-- Route `GET /joke`: FastAPI runs the `Security(verify_api_key)`
dependency first; when it raises, the handler body never runs and the
exception becomes the response; otherwise the handler body runs. -/
def route_joke (env : Env) (header : Option String) (r : Nat) :
    Except HTTPException (Option JokeResponse) :=
  (verify_api_key env header).map fun _ => get_random_joke r

/-- Route `GET /jokes`: same dependency gating as `GET /joke`. -/
def route_jokes (env : Env) (header : Option String) :
    Except HTTPException JokesResponse :=
  (verify_api_key env header).map fun _ => get_all_jokes

/-- Route `GET /health`: public, no dependency; FastAPI serialises the
returned dict with status 200 whatever headers the request carries. -/
def route_health (headers : Env) : Nat × HealthResponse :=
  (200, health_check)

/-- C1: For every request to a protected route, the credential check
evaluates its rules in order on the optional `X-API-Key` header value:
absent header fails with 401 and a message indicating the header is
required; a present header not exactly string-equal to the configured
secret fails with 403 and a message stating the key is invalid;
otherwise the check succeeds. -/
theorem credential_check_rules (env : Env) (k : String) :
    verify_api_key env none =
      .error ⟨401, "Missing API Key. Please provide X-API-Key header."⟩ ∧
    (k ≠ API_KEY env →
      verify_api_key env (some k) = .error ⟨403, "Invalid API Key."⟩) ∧
    verify_api_key env (some (API_KEY env)) = .ok (API_KEY env) := by
  refine ⟨rfl, fun h => ?_, ?_⟩
  · simp [verify_api_key, h]
  · simp [verify_api_key]

/-- Witness for C1 at a concrete wrong key. -/
theorem credential_check_rules_witness :
    verify_api_key (fun _ => none) (some "wrong") =
      .error ⟨403, "Invalid API Key."⟩ :=
  (credential_check_rules (fun _ => none) "wrong").2.1 (by decide)

/-- C2: For every request to `GET /joke` in which the credential check
succeeds, the response body is an object with exactly the fields `joke`
and `total_jokes` (the fields of `JokeResponse`), where `joke` is an
element of the full joke list and `total_jokes` equals the length of the
full joke list (the full store size 24, not 1). -/
theorem joke_route_success (env : Env) (header : Option String) (r : Nat)
    (k : String) (h : verify_api_key env header = .ok k) :
    ∃ resp : JokeResponse,
      route_joke env header r = .ok (some resp) ∧
      resp.joke ∈ get_jokes ∧
      resp.total_jokes = get_jokes.length ∧
      resp.total_jokes = 24 := by
  have hlt : r % get_jokes.length < get_jokes.length := Nat.mod_lt _ (by decide)
  refine ⟨{ joke := get_jokes.get ⟨r % get_jokes.length, hlt⟩,
            total_jokes := get_jokes.length }, ?_, List.get_mem _ _ _, rfl, ?_⟩
  · simp [route_joke, h, get_random_joke, random_choice, Except.map,
      List.getElem?_eq_getElem hlt]
  · rfl

/-- Witness for C2 at the default key and pseudorandom draw 0. -/
theorem joke_route_success_witness :
    ∃ resp : JokeResponse,
      route_joke (fun _ => none) (some "your-secret-api-key-12345") 0 =
        .ok (some resp) ∧
      resp.joke ∈ get_jokes ∧
      resp.total_jokes = get_jokes.length ∧
      resp.total_jokes = 24 :=
  joke_route_success (fun _ => none) (some "your-secret-api-key-12345") 0
    "your-secret-api-key-12345" (by rfl)

/-- C3: For every request to `GET /jokes` in which the credential check
succeeds, the response body contains a `jokes` array identical, element
by element and in order, to the Joke Store fixed sequence, and a
`total_jokes` field equal to the length of that array. -/
theorem jokes_route_success (env : Env) (header : Option String) (k : String)
    (h : verify_api_key env header = .ok k) :
    route_jokes env header =
      .ok { jokes := get_jokes, total_jokes := get_jokes.length } ∧
    (∀ i, get_all_jokes.jokes.get? i = get_jokes.get? i) ∧
    get_all_jokes.total_jokes = get_all_jokes.jokes.length := by
  refine ⟨?_, fun i => rfl, rfl⟩
  simp [route_jokes, h, get_all_jokes, Except.map]

/-- Witness for C3 at the default key. -/
theorem jokes_route_success_witness :
    route_jokes (fun _ => none) (some "your-secret-api-key-12345") =
      .ok { jokes := get_jokes, total_jokes := get_jokes.length } :=
  (jokes_route_success (fun _ => none) (some "your-secret-api-key-12345")
    "your-secret-api-key-12345" (by rfl)).1

/-- C4: For every request to a protected route (`GET /joke` or
`GET /jokes`) on which the credential check fails, the handler body does
not execute: the response is exactly the check error, carrying its
status code and message, and no success body (hence no `joke`, `jokes`
or `total_jokes` field) is ever produced. -/
theorem protected_route_failure (env : Env) (header : Option String)
    (r : Nat) (e : HTTPException)
    (h : verify_api_key env header = .error e) :
    route_joke env header r = .error e ∧
    route_jokes env header = .error e ∧
    (∀ resp, route_joke env header r ≠ .ok resp) ∧
    (∀ resp, route_jokes env header ≠ .ok resp) := by
  refine ⟨?_, ?_, ?_, ?_⟩ <;>
    simp [route_joke, route_jokes, h, Except.map]

/-- Witness for C4 at a request with no `X-API-Key` header. -/
theorem protected_route_failure_witness :
    route_joke (fun _ => none) none 0 =
      .error ⟨401, "Missing API Key. Please provide X-API-Key header."⟩ :=
  (protected_route_failure (fun _ => none) none 0
    ⟨401, "Missing API Key. Please provide X-API-Key header."⟩ rfl).1

/-- C5: For every request to `GET /health`, regardless of which headers
are sent (including none), the response has status 200 and exactly the
body with `status` equal to `healthy` and `service` equal to
`Programming Joke Generator API`. -/
theorem health_route_unconditional (headers : Env) :
    route_health headers =
      (200, { status := "healthy",
              service := "Programming Joke Generator API" }) := rfl

/-- C6: The Joke Store is never empty: `get_jokes` contains at least one
entry, so `random.choice` over it cannot fail and its error branch is
unreachable for every pseudorandom draw. -/
theorem joke_store_nonempty :
    get_jokes ≠ [] ∧ 0 < get_jokes.length ∧
    ∀ r : Nat, (random_choice get_jokes r).isSome := by
  refine ⟨by decide, by decide, fun r => ?_⟩
  have hlt : r % get_jokes.length < get_jokes.length := Nat.mod_lt _ (by decide)
  simp [random_choice, List.getElem?_eq_getElem hlt]

/-- C7: For every pair of calls to `get_jokes` within one process
lifetime, both calls return the same fixed sequence, equal element by
element and in the same order.  The source function reads no mutable
state, so each invocation yields the constant `get_jokes`. -/
theorem joke_list_stable (l1 l2 : List String)
    (h1 : l1 = get_jokes) (h2 : l2 = get_jokes) :
    l1 = l2 ∧ ∀ i, l1.get? i = l2.get? i := by
  subst h1; subst h2; exact ⟨rfl, fun _ => rfl⟩

/-- Witness for C7: two concrete invocations agree. -/
theorem joke_list_stable_witness : get_jokes = get_jokes :=
  (joke_list_stable get_jokes get_jokes rfl rfl).1

/-- C8: The configured secret is `os.getenv` applied once at module load
to `AUTH_KEY`: when the variable is absent the documented hardcoded
default literal is the secret, when present its value is; every
credential check compares the supplied key against this single value. -/
theorem api_key_configuration (env : Env) :
    (env "AUTH_KEY" = none → API_KEY env = "your-secret-api-key-12345") ∧
    (∀ v, env "AUTH_KEY" = some v → API_KEY env = v) ∧
    (∀ k, verify_api_key env (some k) = .ok k ↔ k = API_KEY env) := by
  refine ⟨fun h => by simp [API_KEY, h], fun v h => by simp [API_KEY, h],
    fun k => ?_⟩
  by_cases hk : k = API_KEY env
  · subst hk; simp [verify_api_key]
  · simp [verify_api_key, hk]

/-- Witness for C8 at an empty environment and at one setting `AUTH_KEY`. -/
theorem api_key_configuration_witness :
    API_KEY (fun _ => none) = "your-secret-api-key-12345" ∧
    API_KEY (fun _ => some "s3cret") = "s3cret" :=
  ⟨(api_key_configuration (fun _ => none)).1 rfl,
   (api_key_configuration (fun _ => some "s3cret")).2.1 "s3cret" rfl⟩

/-- C9: When the credential check succeeds, it carries no data derived
from the request beyond pass/fail: the value it returns is always the
configured secret itself, fully determined by the configuration and
independent of the request. -/
theorem success_carries_no_request_data (env : Env) (header : Option String)
    (v : String) (h : verify_api_key env header = .ok v) :
    v = API_KEY env := by
  cases header with
  | none => simp [verify_api_key] at h
  | some k =>
    by_cases hk : k = API_KEY env
    · subst hk
      simp [verify_api_key] at h
      exact h.symm
    · simp [verify_api_key, hk] at h

/-- Witness for C9 at the default key. -/
theorem success_carries_no_request_data_witness :
    "your-secret-api-key-12345" = API_KEY (fun _ => none) :=
  success_carries_no_request_data (fun _ => none)
    (some "your-secret-api-key-12345") "your-secret-api-key-12345" (by rfl)

/-- C10: The list returned by `get_jokes` has exactly 24 entries, only
20 of which are distinct: its first four entries appear again, in the
same order, as entries 21 through 24, so each of those four jokes occurs
twice (twice as likely under uniform selection over entries) while every
other joke occurs once. -/
theorem joke_list_duplicates :
    get_jokes.length = 24 ∧
    get_jokes.dedup.length = 20 ∧
    get_jokes.drop 20 = get_jokes.take 4 ∧
    (∀ j ∈ get_jokes.take 4, get_jokes.count j = 2) ∧
    (∀ j ∈ get_jokes, j ∉ get_jokes.take 4 → get_jokes.count j = 1) := by
  refine ⟨by decide, by decide, by decide, by decide, by decide⟩

end JokeApp
